import Mathlib

/-!
Shallow embedding of `src/contexts/AuthContext.tsx`.

This file embeds the session/auth state machine of the repository
(`AuthProvider` in `src/contexts/AuthContext.tsx`) as pure Lean
functions.  Effects are made explicit:

* React state (`user`, `isLoading`, `confirmation`, `viewAsState`)
  becomes the record `AuthState`, threaded through every operation.
* `AsyncStorage` (keys `accessToken`, `refreshToken`, `userProfile`,
  `viewAsState`) becomes the record `Store`.  Serialized JSON values
  are modelled by the inductive `Blob`; `JSON.parse` throwing on a
  malformed string is modelled by the parse functions returning `none`.
  `multiSet` / `multiRemove` are modelled as atomic (all-or-nothing),
  matching the store contract; `multiRemove` is modelled as infallible.
* Network calls (`apiService.get/post`), the identity-provider calls
  (`signInWithPhoneNumber`, `confirmation.confirm`, `signOut`) are
  modelled by environment records supplying the outcome of each call.
* A thrown JS error becomes the `JsError` value carried in an
  `Except`; `router.replace` calls are collected into a trace list.
-/

namespace AuthContext

/-- The TS enum `UserRole`, whose single member `CUSTOMER` carries the string value `customer`. -/
inductive UserRole where
  | CUSTOMER
deriving DecidableEq, Repr

/-- The TS `interface User` (all optional TS fields become `Option`). -/
structure User where
  id : String
  phone : String
  role : UserRole
  customerType : UserRole
  franchiseId : Option String := none
  franchiseName : Option String := none
  permissions : List String
  hasOnboarded : Bool
  name : String
  email : Option String := none
  avatar : Option String := none
  address : Option String := none
  alternativePhone : Option String := none
deriving DecidableEq, Repr

/-- The TS `interface ViewAsState`. -/
structure ViewAsState where
  isViewingAs : Bool
  originalUser : Option User
  currentViewRole : Option UserRole
  targetFranchiseId : Option String := none
  targetUserId : Option String := none
  targetFranchiseName : Option String := none
  targetUserName : Option String := none
deriving DecidableEq, Repr

/-- The reset literal `{isViewingAs:false, originalUser:null, currentViewRole:null}`
used in `initializeAuth`, `logout` and `refreshUser`. -/
def emptyViewAs : ViewAsState :=
  { isViewingAs := false, originalUser := none, currentViewRole := none }

/-- A serialized JSON value held in the store.  `userBlob` / `viewAsBlob`
are well-formed serializations of the corresponding records; `malformed`
is a non-empty string `JSON.parse` throws on (or that does not yield the
expected shape).  An empty stored string is falsy in every presence
check the component performs, so it is modelled by the key being
absent. -/
inductive Blob where
  | userBlob (u : User)
  | viewAsBlob (v : ViewAsState)
  | malformed
deriving DecidableEq, Repr

/-- Model of `JSON.parse` applied to a stored profile string, as used at
`initializeAuth` (`JSON.parse(userProfile[1])`): `none` models a throw. -/
def parseUserBlob : Blob → Option User
  | .userBlob u => some u
  | _ => none

/-- Model of `JSON.parse` applied to a stored view-as string
(`JSON.parse(viewAsData[1])`): `none` models a throw. -/
def parseViewAsBlob : Blob → Option ViewAsState
  | .viewAsBlob v => some v
  | _ => none

/-- Model of `JSON.stringify(userData)` in `verifyOTP`; `userData` may be absent
in the backend response, in which case the stored value is not a valid
profile serialization. -/
def stringifyUser : Option User → Blob
  | some u => .userBlob u
  | none => .malformed

/-- The four `AsyncStorage` keys used by the component. -/
structure Store where
  accessToken : Option String
  refreshToken : Option String
  userProfile : Option Blob
  viewAsState : Option Blob
deriving DecidableEq, Repr

/-- The store with all four keys absent. -/
def emptyStore : Store := ⟨none, none, none, none⟩

/-- The helper `clearAuthData`: one `AsyncStorage.multiRemove` of the four keys `accessToken`, `refreshToken`, `userProfile`, `viewAsState`. -/
def clearAuthData (_ : Store) : Store := emptyStore

/-- The in-memory React state of the provider: `user`, `isLoading`,
`confirmation` (the pending OTP challenge handle, identified by an
opaque id), `viewAsState`. -/
structure AuthState where
  user : Option User
  isLoading : Bool
  confirmation : Option Nat
  viewAsState : ViewAsState
deriving DecidableEq, Repr

/-- The state at mount, before `initializeAuth` runs:
`useState<User|null>(null)`, `useState(true)`, `useState<any>(null)`,
and the empty `ViewAsState` literal. -/
def initialState : AuthState :=
  { user := none, isLoading := true, confirmation := none, viewAsState := emptyViewAs }

/-- The derived flag, from the line `const isAuthenticated = !!user`. -/
def isAuthenticated (s : AuthState) : Bool := s.user.isSome

/-- A thrown JS error value: Firebase errors carry a `code`
(such as `auth/invalid-verification-code`); `new Error(msg)` has no code. -/
structure JsError where
  code : Option String
  message : String
deriving DecidableEq, Repr

/-- JS `a || b` for `a` a possibly-absent string (`undefined` and the
empty string are falsy), as in the expression throwing `Login failed`. -/
def jsOrElse : Option String → String → String
  | none, b => b
  | some a, b => if a = "" then b else a

/-- JS `m || b` for a string `m` (the empty string is falsy), as in
the fallback on `error.message` in the catch of `verifyOTP`. -/
def jsStrOr (m b : String) : String := if m = "" then b else m

/-- JS truthiness of a possibly-absent string, as in the guard
`if (accessToken[1] && userProfile[1])`: `null` and the empty string are falsy. -/
def jsTruthyStr : Option String → Bool
  | none => false
  | some t => t ≠ ""

/-- The `data` field of the `GET /auth/me` response body; `user` may be
absent (a malformed body). -/
structure MeData where
  user : Option User
deriving DecidableEq, Repr

/-- The `GET /auth/me` response body `{success: bool, data?: {user}}`;
`data` may be absent (a malformed body). -/
structure MeResponse where
  success : Bool
  data : Option MeData
deriving DecidableEq, Repr

/-- Outcome of one `apiService.get` call on `/auth/me`: `none` models the
promise rejecting (network error / HTTP rejection), `some r` a resolved
body. -/
abbrev MeOutcome := Option MeResponse

/-- Result of an operation that updates state, store, and navigates. -/
structure OpOut where
  state : AuthState
  store : Store
  nav : List String
deriving DecidableEq, Repr

/-- The operation `refreshUser`, line by line:
if the `GET /auth/me` call resolves with `success` and a present
`data.user`, set `user` to the returned profile (the spread plus the
`hasOnboarded` carry-forward reproduces the profile exactly) and
navigate to `/intialscreen`; if `success` but `data` or `data.user`
is absent, the property access `response.data.user.hasOnboarded`
throws; if `!success`, navigate to `/(auth)` and throw.  Every throw
is caught by the catch of `refreshUser` itself, which clears the four
persisted keys, resets `user` and `viewAsState`, and navigates to
`/(auth)` — the catch does not re-throw, so `refreshUser` always
resolves (store removal is modelled infallible). -/
def refreshUser (api : MeOutcome) (s : AuthState) (st : Store) : OpOut :=
  match api with
  | none =>
      -- apiService.get rejected: straight to the catch block.
      { state := { s with user := none, viewAsState := emptyViewAs },
        store := clearAuthData st, nav := ["/(auth)"] }
  | some r =>
      if r.success then
        match r.data with
        | some d =>
            match d.user with
            | some u =>
                { state := { s with user := some u }, store := st,
                  nav := ["/intialscreen"] }
            | none =>
                -- `.hasOnboarded` of undefined throws, then the catch runs.
                { state := { s with user := none, viewAsState := emptyViewAs },
                  store := clearAuthData st, nav := ["/(auth)"] }
        | none =>
            -- `response.data.user` of undefined throws, then the catch runs.
            { state := { s with user := none, viewAsState := emptyViewAs },
              store := clearAuthData st, nav := ["/(auth)"] }
      else
        -- router.replace to the auth route, throw, caught by own catch.
        { state := { s with user := none, viewAsState := emptyViewAs },
          store := clearAuthData st, nav := ["/(auth)", "/(auth)"] }

/-- The condition under which `refreshUser` rejects the session: the
call fails, the body signals failure, or the body is malformed — the
failure premise of property P4 of the spec. -/
def meFails (api : MeOutcome) : Bool :=
  match api with
  | none => true
  | some r => !r.success ||
      (match r.data with
       | none => true
       | some d => d.user.isNone)

/-- Environment of one `initializeAuth` run: whether the batched
`AsyncStorage.multiGet` rejects, and the outcome of the `/auth/me`
call should `refreshUser` be reached. -/
structure InitEnv where
  multiGetFails : Bool
  api : MeOutcome
deriving DecidableEq, Repr

/-- Result of `initializeAuth`, also recording whether any backend
call was made. -/
structure InitOut where
  state : AuthState
  store : Store
  nav : List String
  apiCalled : Bool
deriving DecidableEq, Repr

/-- The operation `initializeAuth`, line by line: batched read of
`accessToken`, `userProfile`, `viewAsState`; if both token and profile
strings are present, parse the profile (`JSON.parse` may throw), set
`user`, parse and set the view-as blob when present (may throw), then
`await refreshUser()` — whose failures it would catch by purging, but
which never rejects here since its own catch swallows everything.  Any
throw before that lands in the outer catch, which only runs
`clearAuthData()`.  The `finally` sets `isLoading` to false on every
path. -/
def initializeAuth (env : InitEnv) (s : AuthState) (st : Store) : InitOut :=
  let finish : AuthState → Store → List String → Bool → InitOut :=
    fun s' st' nav called =>
      { state := { s' with isLoading := false }, store := st', nav := nav,
        apiCalled := called }
  if env.multiGetFails then
    -- outer catch: clearAuthData only; user/viewAs untouched.
    finish s (clearAuthData st) [] false
  else
    match jsTruthyStr st.accessToken, st.userProfile with
    | true, some profileBlob =>
        (match parseUserBlob profileBlob with
         | none =>
             -- JSON.parse(userProfile[1]) threw: outer catch.
             finish s (clearAuthData st) [] false
         | some parsedUser =>
             let s1 := { s with user := some parsedUser }
             match st.viewAsState with
             | some vaBlob =>
                 (match parseViewAsBlob vaBlob with
                  | none =>
                      -- JSON.parse(viewAsData[1]) threw after setUser: outer catch.
                      finish s1 (clearAuthData st) [] false
                  | some parsedViewAs =>
                      let s2 := { s1 with viewAsState := parsedViewAs }
                      let r := refreshUser env.api s2 st
                      finish r.state r.store r.nav true)
             | none =>
                 let r := refreshUser env.api s1 st
                 finish r.state r.store r.nav true)
    | _, _ =>
        -- token or profile missing: nothing happens before the finally.
        finish s st [] false

/-- The normalization `phoneNumber.replace` with the non-digit regex and
the empty replacement: keep only the digit characters. -/
def stripNonDigits (s : String) : String :=
  String.mk (s.data.filter fun c => c.isDigit)

deriving instance DecidableEq for Except

/-- Result of `sendOTP`: the updated state, the returned/thrown value,
and the phone number the identity provider was called with. -/
structure SendOut where
  state : AuthState
  result : Except JsError Nat
  providerCalledWith : String
deriving DecidableEq, Repr

/-- The operation `sendOTP`: format the phone by prefixing `+91` to the
stripped digits,
call `signInWithPhoneNumber` with it (outcome supplied by `provider`:
a challenge handle or a thrown error), store the handle in
`confirmation` on success, re-throw unchanged on failure. -/
def sendOTP (provider : Except JsError Nat) (phoneNumber : String)
    (s : AuthState) : SendOut :=
  let formattedPhone := "+91" ++ stripNonDigits phoneNumber
  match provider with
  | .ok confirmation =>
      { state := { s with confirmation := some confirmation },
        result := .ok confirmation, providerCalledWith := formattedPhone }
  | .error e =>
      { state := s, result := .error e, providerCalledWith := formattedPhone }

/-- The body sent to `POST /auth/login`. -/
structure LoginRequest where
  idToken : String
  role : String
deriving DecidableEq, Repr

/-- The `data` field of the `/auth/login` response:
`{accessToken, refreshToken, user}` (`user` may be absent). -/
structure LoginData where
  accessToken : String
  refreshToken : String
  user : Option User
deriving DecidableEq, Repr

/-- The `/auth/login` response body
`{success: bool, data?: {...}, error?: string}`. -/
structure LoginResponse where
  success : Bool
  data : Option LoginData
  error : Option String
deriving DecidableEq, Repr

/-- Environment of one `verifyOTP` run: the outcome of
`confirmation.confirm(otp)` followed by `result.user.getIdToken()`
(an identity token or a thrown provider error), the outcome of the
`apiService.post` call on `/auth/login` (`.error` models the promise
rejecting), and whether the batched `AsyncStorage.multiSet` rejects
(atomic: no keys are written when it does). -/
structure VerifyEnv where
  confirmResult : Except JsError String
  loginResult : Except JsError LoginResponse
  multiSetFails : Bool
deriving DecidableEq, Repr

/-- The value `verifyOTP` resolves with: `{nextScreen, success}`. -/
structure VerifyRet where
  nextScreen : String
  success : Bool
deriving DecidableEq, Repr

/-- Result of `verifyOTP`: final state, final store, the resolved value
or thrown error, and the `POST /auth/login` body when that call was
made. -/
structure VerifyOut where
  state : AuthState
  store : Store
  result : Except JsError VerifyRet
  request : Option LoginRequest
deriving DecidableEq, Repr

/-- The message of the error thrown by `verifyOTP` when no confirmation
handle is held. -/
def noConfirmationMsg : String :=
  "No OTP confirmation found. Please request a new OTP."

/-- The catch block of `verifyOTP`: `setConfirmation(null)`, then
re-throw translated by `error.code` —
`auth/invalid-verification-code` and `auth/code-expired` get fixed
messages, anything else falls back on `error.message` with a generic
message when that is empty. -/
def verifyCatch (e : JsError) : JsError :=
  if e.code = some ("auth/invalid-verification-code") then
    ⟨none, "Invalid OTP. Please check the code and try again."⟩
  else if e.code = some ("auth/code-expired") then
    ⟨none, "OTP has expired. Please request a new code."⟩
  else
    ⟨none, jsStrOr e.message ("OTP verification failed. Please try again.")⟩

/-- The operation `verifyOTP`, line by line: `setIsLoading(true)`; throw
if no `confirmation` is held; confirm the code and obtain the id token;
`POST /auth/login` with body `{idToken, role}` where the `role` field is
the string literal `customer` — the `role` argument of the function is
not used in the body; on `response.success`, destructure `response.data`
(throws when `data` is absent), write the three keys in one batched
`multiSet`, set `user`, clear `confirmation` and resolve with
`nextScreen` equal to `/intialscreen` when a profile was returned and
`/` otherwise; on `!response.success`, throw `response.error` with the
fallback message `Login failed`.  Every throw reaches the catch
(`setConfirmation(null)` plus message translation) and the `finally`
resets `isLoading` on every path. -/
def verifyOTP (env : VerifyEnv) (_role : String) (s : AuthState)
    (st : Store) : VerifyOut :=
  let fail : Option LoginRequest → JsError → VerifyOut := fun req e =>
    { state := { s with isLoading := false, confirmation := none },
      store := st, result := .error (verifyCatch e), request := req }
  match s.confirmation with
  | none => fail none ⟨none, noConfirmationMsg⟩
  | some _ =>
      match env.confirmResult with
      | .error e => fail none e
      | .ok idToken =>
          let req : LoginRequest := { idToken := idToken, role := "customer" }
          match env.loginResult with
          | .error e => fail (some req) e
          | .ok response =>
              if response.success then
                match response.data with
                | none =>
                    -- destructuring `response.data` throws a TypeError.
                    fail (some req)
                      ⟨none, "TypeError: cannot destructure response.data"⟩
                | some d =>
                    if env.multiSetFails then
                      fail (some req) ⟨none, "AsyncStorage write failed"⟩
                    else
                      let st' : Store :=
                        { st with accessToken := some d.accessToken,
                                  refreshToken := some d.refreshToken,
                                  userProfile := some (stringifyUser d.user) }
                      let s' : AuthState :=
                        { s with isLoading := false, user := d.user,
                                 confirmation := none }
                      let nextScreen : String :=
                        if d.user.isSome then "/intialscreen" else "/"
                      { state := s', store := st',
                        result := .ok { nextScreen := nextScreen, success := true },
                        request := some req }
              else
                fail (some req) ⟨none, jsOrElse response.error ("Login failed")⟩

/-- The operation `logout`, line by line: `setIsLoading(true)`; `signOut(getAuth())`
(outcome supplied by `signOutFails`); then — still inside the `try` —
`clearAuthData()` and the resets of `user`, `confirmation`,
`viewAsState`.  The catch only logs; the `finally` resets `isLoading`.
So when `signOut` throws, none of the purge/reset code runs.  The
operation always resolves (its return type carries no error). -/
def logout (signOutFails : Bool) (s : AuthState) (st : Store) :
    AuthState × Store :=
  if signOutFails then
    ({ s with isLoading := false }, st)
  else
    ({ user := none, isLoading := false, confirmation := none,
       viewAsState := emptyViewAs }, clearAuthData st)

/-- Target descriptors passed to `enterViewAs`. -/
structure TargetDescriptors where
  targetFranchiseId : Option String := none
  targetUserId : Option String := none
  targetFranchiseName : Option String := none
  targetUserName : Option String := none
deriving DecidableEq, Repr

/-- Modelled from the spec: `enterViewAs(targetRole, targetDescriptors)`
is not present in `src/` (only the `ViewAsState` record it manipulates
is).  Per §4.2 it requires `isViewingAs` currently false (fails if
already impersonating), captures the current `user` into
`originalUser`, sets `currentViewRole` and the target descriptors,
sets `isViewingAs` to true, and persists the new `ViewAsState` blob. -/
def enterViewAs (targetRole : UserRole) (d : TargetDescriptors)
    (s : AuthState) (st : Store) : Except JsError (AuthState × Store) :=
  if s.viewAsState.isViewingAs then
    .error ⟨none, "Already in view-as mode"⟩
  else
    let va : ViewAsState :=
      { isViewingAs := true, originalUser := s.user,
        currentViewRole := some targetRole,
        targetFranchiseId := d.targetFranchiseId,
        targetUserId := d.targetUserId,
        targetFranchiseName := d.targetFranchiseName,
        targetUserName := d.targetUserName }
    .ok ({ s with viewAsState := va },
         { st with viewAsState := some (.viewAsBlob va) })

/-- Modelled from the spec: `exitViewAs()` is not present in `src/`.
Per §4.2 it restores `user` from `originalUser` unchanged, clears all
view-as fields, and persists the empty `ViewAsState`; it is a no-op
when `isViewingAs` is already false. -/
def exitViewAs (s : AuthState) (st : Store) : AuthState × Store :=
  if s.viewAsState.isViewingAs then
    let s' : AuthState :=
      { s with user := s.viewAsState.originalUser, viewAsState := emptyViewAs }
    (s', { st with viewAsState := some (.viewAsBlob emptyViewAs) })
  else
    (s, st)

/-! Concrete sample values used by witnesses and counterexamples. -/

/-- A sample profile record. -/
def sampleUser : User :=
  { id := "1", phone := "+919876543210", role := .CUSTOMER,
    customerType := .CUSTOMER, permissions := [], hasOnboarded := true,
    name := "A" }

/-- A store holding a credential pair and a valid serialized profile. -/
def sampleStore : Store :=
  { accessToken := some ("a"), refreshToken := some ("b"),
    userProfile := some (.userBlob sampleUser), viewAsState := none }

/-- An authenticated in-memory state with no pending challenge. -/
def sampleLoggedIn : AuthState :=
  { user := some sampleUser, isLoading := false, confirmation := none,
    viewAsState := emptyViewAs }

/-- An unauthenticated in-memory state holding a pending challenge. -/
def samplePending : AuthState :=
  { user := none, isLoading := false, confirmation := some 7,
    viewAsState := emptyViewAs }

/-- A `verifyOTP` environment in which the provider confirms the code
and the backend answers the scenario-D body: failure with the message
`banned`. -/
def bannedEnv : VerifyEnv :=
  { confirmResult := .ok ("tok"),
    loginResult := .ok { success := false, data := none, error := some ("banned") },
    multiSetFails := false }

/-- A `verifyOTP` environment in which the provider confirms the code
and the backend accepts the login, returning a full credential set. -/
def okLoginEnv : VerifyEnv :=
  { confirmResult := .ok ("tok"),
    loginResult := .ok
      { success := true,
        data := some { accessToken := "a", refreshToken := "b",
                       user := some sampleUser },
        error := none },
    multiSetFails := false }

/-- The sample store with a malformed serialized view-as blob next to a
valid credential and profile. -/
def malformedViewAsStore : Store :=
  { sampleStore with viewAsState := some .malformed }

/-- The sample store with a malformed serialized profile. -/
def malformedProfileStore : Store :=
  { sampleStore with userProfile := some .malformed }

/-- A `verifyOTP` environment in which the provider rejects the
submitted code as invalid. -/
def invalidCodeEnv : VerifyEnv :=
  { confirmResult := .error
      ⟨some ("auth/invalid-verification-code"), "bad code"⟩,
    loginResult := .error ⟨none, "unreached"⟩,
    multiSetFails := false }

/-! Helper lemmas shared by several claim proofs. -/

/-- JS `a || b` never yields the empty string when `b` is non-empty. -/
theorem jsOrElse_ne_empty (o : Option String) (b : String) (hb : b ≠ "") :
    jsOrElse o b ≠ "" := by
  cases o with
  | none => simpa [jsOrElse] using hb
  | some a =>
      by_cases ha : a = "" <;> simp [jsOrElse, ha, hb]

/-- The catch of `verifyOTP` passes a plain error with a non-empty
message through unchanged. -/
theorem verifyCatch_plain (m : String) (hm : m ≠ "") :
    verifyCatch ⟨none, m⟩ = ⟨none, m⟩ := by
  simp [verifyCatch, jsStrOr, hm]

/-- Whenever the `/auth/me` outcome is failing, `refreshUser` purges:
`user` absent, `viewAsState` reset, all four persisted keys removed. -/
theorem refreshUser_fail (api : MeOutcome) (s : AuthState) (st : Store)
    (h : meFails api = true) :
    (refreshUser api s st).state =
      { s with user := none, viewAsState := emptyViewAs } ∧
    (refreshUser api s st).store = emptyStore := by
  cases api with
  | none => simp [refreshUser, clearAuthData]
  | some r =>
      cases hsucc : r.success with
      | false => simp [refreshUser, hsucc, clearAuthData]
      | true =>
          cases hd : r.data with
          | none => simp [refreshUser, hsucc, hd, clearAuthData]
          | some d =>
              cases hu : d.user with
              | none => simp [refreshUser, hsucc, hd, hu, clearAuthData]
              | some u =>
                  exfalso
                  simp [meFails, hsucc, hd, hu] at h

/-- Every error exit of `verifyOTP` leaves the started-from store
untouched and the state equal to the input state with `isLoading`
false and `confirmation` cleared. -/
theorem verifyOTP_error_shape (env : VerifyEnv) (role : String)
    (s : AuthState) (st : Store) :
    (∃ r, (verifyOTP env role s st).result = .ok r) ∨
    ((verifyOTP env role s st).state =
        { s with isLoading := false, confirmation := none } ∧
     (verifyOTP env role s st).store = st) := by
  obtain ⟨cr, lr, msf⟩ := env
  cases hc : s.confirmation with
  | none => right; simp [verifyOTP, hc]
  | some c =>
      cases cr with
      | error e => right; simp [verifyOTP, hc]
      | ok tok =>
          cases lr with
          | error e => right; simp [verifyOTP, hc]
          | ok resp =>
              cases hsucc : resp.success with
              | false => right; simp [verifyOTP, hc, hsucc]
              | true =>
                  cases hd : resp.data with
                  | none => right; simp [verifyOTP, hc, hsucc, hd]
                  | some d =>
                      cases msf with
                      | true => right; simp [verifyOTP, hc, hsucc, hd]
                      | false =>
                          left
                          refine ⟨{ nextScreen := if d.user.isSome then "/intialscreen" else "/",
                                    success := true }, ?_⟩
                          simp [verifyOTP, hc, hsucc, hd]

/-! Claim theorems. -/

/-- Claim C5: at every observation point the exposed `isAuthenticated`
flag equals the presence of `user`; it is a derived value (a function of
the state — `AuthState` holds no separate authenticated field), never
stored or settable independently of `user`. -/
theorem isAuthenticated_derived_from_user (s : AuthState) :
    isAuthenticated s = true ↔ ∃ u, s.user = some u := by
  simp [isAuthenticated, Option.isSome_iff_exists]

/-- Claim C8: `sendOTP` normalizes every input phone string by stripping
all non-digit characters and prefixing the fixed country code `+91`
before calling the identity provider; in particular the input
`9876543210` reaches the provider as `+919876543210`. -/
theorem sendOTP_normalizes_phone :
    (∀ (provider : Except JsError Nat) (phoneNumber : String) (s : AuthState),
        (sendOTP provider phoneNumber s).providerCalledWith =
          "+91" ++ stripNonDigits phoneNumber) ∧
    (sendOTP (.ok 0) ("9876543210") initialState).providerCalledWith =
      "+919876543210" := by
  constructor
  · intro provider phoneNumber s
    cases provider <;> rfl
  · decide

/-- Claim C7: when the batched read succeeds but the access credential
or the stored profile is missing (or empty, hence falsy), `initializeAuth`
skips validation: `user` stays absent, no backend call is made, and
`isLoading` is false at the end. -/
theorem initializeAuth_missing_keys_skip_validation (env : InitEnv)
    (st : Store)
    (hget : env.multiGetFails = false)
    (hmiss : jsTruthyStr st.accessToken = false ∨ st.userProfile = none) :
    (initializeAuth env initialState st).state.user = none ∧
    (initializeAuth env initialState st).apiCalled = false ∧
    (initializeAuth env initialState st).state.isLoading = false := by
  rcases hmiss with h | h
  · cases htp : st.userProfile with
    | none => simp [initializeAuth, hget, h, htp, initialState]
    | some b => simp [initializeAuth, hget, h, htp, initialState]
  · cases hta : jsTruthyStr st.accessToken with
    | false => simp [initializeAuth, hget, h, hta, initialState]
    | true => simp [initializeAuth, hget, h, hta, initialState]

/-- Witness for C7 at a concrete input: the empty store, validation
outcome irrelevant. -/
theorem initializeAuth_missing_keys_skip_validation_witness :
    (initializeAuth ⟨false, none⟩ initialState emptyStore).state.user = none ∧
    (initializeAuth ⟨false, none⟩ initialState emptyStore).apiCalled = false ∧
    (initializeAuth ⟨false, none⟩ initialState emptyStore).state.isLoading = false :=
  initializeAuth_missing_keys_skip_validation ⟨false, none⟩ emptyStore rfl
    (Or.inr rfl)

/-- Claim C1: when a stored (truthy) access credential and a parseable
stored profile are present, the stored view-as blob (if any) parses, and
the backend rejects the validation call on the me-endpoint (network
error, rejection, or malformed response), `initializeAuth` ends with
`user` absent, `viewAsState` reset to its empty form, and all four
persisted keys removed. -/
theorem initializeAuth_rejected_validation_purges (env : InitEnv)
    (st : Store) (u : User) (b : Blob)
    (hget : env.multiGetFails = false)
    (hat : jsTruthyStr st.accessToken = true)
    (hup : st.userProfile = some b)
    (hpu : parseUserBlob b = some u)
    (hva : st.viewAsState = none ∨
           ∃ vb v, st.viewAsState = some vb ∧ parseViewAsBlob vb = some v)
    (hfail : meFails env.api = true) :
    (initializeAuth env initialState st).state.user = none ∧
    (initializeAuth env initialState st).state.viewAsState = emptyViewAs ∧
    (initializeAuth env initialState st).store = emptyStore := by
  rcases hva with hva | ⟨vb, v, hva, hpv⟩
  · have hr := refreshUser_fail env.api
      { initialState with user := some u } st hfail
    simp [initializeAuth, hget, hat, hup, hpu, hva, hr.1, hr.2]
  · have hr := refreshUser_fail env.api
      { initialState with user := some u, viewAsState := v } st hfail
    simp [initializeAuth, hget, hat, hup, hpu, hva, hpv, hr.1, hr.2]

/-- Witness for C1 at a concrete input: full store, network error on
the validation call. -/
theorem initializeAuth_rejected_validation_purges_witness :
    (initializeAuth ⟨false, none⟩ initialState sampleStore).state.user = none ∧
    (initializeAuth ⟨false, none⟩ initialState sampleStore).state.viewAsState =
      emptyViewAs ∧
    (initializeAuth ⟨false, none⟩ initialState sampleStore).store = emptyStore :=
  initializeAuth_rejected_validation_purges ⟨false, none⟩ sampleStore
    sampleUser (.userBlob sampleUser) rfl (by decide) rfl rfl (Or.inl rfl) rfl

/-- Claim C3: when the backend exchange response signals failure,
`verifyOTP` fails with the reported error message (with the generic
fallback `Login failed` when none is given), the pending challenge is
cleared, and no key of the store is written — the store is exactly the
one started from. -/
theorem verifyOTP_exchange_failure_no_writes (env : VerifyEnv)
    (role : String) (s : AuthState) (st : Store) (c : Nat) (tok : String)
    (resp : LoginResponse)
    (hconf : s.confirmation = some c)
    (hcr : env.confirmResult = .ok tok)
    (hlr : env.loginResult = .ok resp)
    (hfail : resp.success = false) :
    (verifyOTP env role s st).result =
      .error ⟨none, jsOrElse resp.error ("Login failed")⟩ ∧
    (verifyOTP env role s st).state.confirmation = none ∧
    (verifyOTP env role s st).store = st := by
  have hne : jsOrElse resp.error ("Login failed") ≠ "" :=
    jsOrElse_ne_empty _ _ (by decide)
  simp [verifyOTP, hconf, hcr, hlr, hfail, verifyCatch_plain _ hne]

/-- Witness for C3 at the concrete scenario-D input: backend answers
failure with message `banned`. -/
theorem verifyOTP_exchange_failure_no_writes_witness :
    (verifyOTP bannedEnv ("customer") samplePending emptyStore).result =
      .error ⟨none, jsOrElse (some ("banned")) ("Login failed")⟩ ∧
    (verifyOTP bannedEnv ("customer") samplePending emptyStore).state.confirmation
      = none ∧
    (verifyOTP bannedEnv ("customer") samplePending emptyStore).store =
      emptyStore :=
  verifyOTP_exchange_failure_no_writes bannedEnv ("customer") samplePending
    emptyStore 7 ("tok")
    { success := false, data := none, error := some ("banned") }
    rfl rfl rfl rfl

/-- Claim C10: every failing `verifyOTP` — missing challenge, provider
rejection, exchange failure, or persistence write failure — clears the
pending challenge before the error propagates, so an immediately
following `verifyOTP` call fails with the no-active-challenge error. -/
theorem verifyOTP_failure_clears_confirmation (env env2 : VerifyEnv)
    (role role2 : String) (s : AuthState) (st : Store) (e : JsError)
    (hfail : (verifyOTP env role s st).result = .error e) :
    (verifyOTP env role s st).state.confirmation = none ∧
    (verifyOTP env2 role2 (verifyOTP env role s st).state
        (verifyOTP env role s st).store).result =
      .error ⟨none, noConfirmationMsg⟩ := by
  rcases verifyOTP_error_shape env role s st with ⟨r, hr⟩ | ⟨hstate, hstore⟩
  · rw [hr] at hfail
    exact absurd hfail (by simp)
  · rw [hstate]
    refine ⟨rfl, ?_⟩
    simp [verifyOTP,
      verifyCatch_plain _ (show noConfirmationMsg ≠ "" by decide)]

/-- Witness for C10 at a concrete input: the provider rejects the code,
and the immediate retry fails with the no-active-challenge message. -/
theorem verifyOTP_failure_clears_confirmation_witness :
    (verifyOTP invalidCodeEnv ("c") samplePending sampleStore).state.confirmation
      = none ∧
    (verifyOTP invalidCodeEnv ("c")
        (verifyOTP invalidCodeEnv ("c") samplePending sampleStore).state
        (verifyOTP invalidCodeEnv ("c") samplePending sampleStore).store).result =
      .error ⟨none, noConfirmationMsg⟩ :=
  verifyOTP_failure_clears_confirmation invalidCodeEnv invalidCodeEnv
    ("c") ("c") samplePending sampleStore
    ⟨none, "Invalid OTP. Please check the code and try again."⟩ (by decide)

/-- Claim C9 (modelled from the spec, §4.2): from any session state not
in view-as mode, `enterViewAs` followed by `exitViewAs` restores `user`
to the exact value (structural equality) held before `enterViewAs`,
with all view-as fields cleared. -/
theorem viewAs_roundtrip_restores_user (s : AuthState) (st : Store)
    (r : UserRole) (d : TargetDescriptors)
    (h : s.viewAsState.isViewingAs = false) :
    ∃ s1 st1, enterViewAs r d s st = .ok (s1, st1) ∧
      (exitViewAs s1 st1).1.user = s.user ∧
      (exitViewAs s1 st1).1.viewAsState = emptyViewAs := by
  refine ⟨{ s with viewAsState :=
      { isViewingAs := true, originalUser := s.user,
        currentViewRole := some r,
        targetFranchiseId := d.targetFranchiseId,
        targetUserId := d.targetUserId,
        targetFranchiseName := d.targetFranchiseName,
        targetUserName := d.targetUserName } },
    { st with viewAsState := some (.viewAsBlob
      { isViewingAs := true, originalUser := s.user,
        currentViewRole := some r,
        targetFranchiseId := d.targetFranchiseId,
        targetUserId := d.targetUserId,
        targetFranchiseName := d.targetFranchiseName,
        targetUserName := d.targetUserName }) }, ?_, ?_, ?_⟩
  · simp [enterViewAs, h]
  · simp [exitViewAs]
  · simp [exitViewAs]

/-- Witness for C9 at a concrete input: an authenticated session
entering and leaving view-as. -/
theorem viewAs_roundtrip_restores_user_witness :
    ∃ s1 st1,
      enterViewAs .CUSTOMER {} sampleLoggedIn sampleStore = .ok (s1, st1) ∧
      (exitViewAs s1 st1).1.user = sampleLoggedIn.user ∧
      (exitViewAs s1 st1).1.viewAsState = emptyViewAs :=
  viewAs_roundtrip_restores_user sampleLoggedIn sampleStore .CUSTOMER {} rfl

/-- Counterexample to claim C2: at a concrete logged-in state with a
populated store, a `logout` whose identity-provider sign-out call fails
leaves the store untouched (the access credential is still present) and
the in-memory user still set — the purge and resets are skipped, not
performed, on this path. -/
theorem logout_signOut_failure_skips_purge :
    (logout true sampleLoggedIn sampleStore).2 = sampleStore ∧
    sampleStore.accessToken = some ("a") ∧
    (logout true sampleLoggedIn sampleStore).1.user = some sampleUser := by
  decide

/-- Claim C2 as amended: `logout` always resolves (it is total and has
no error channel); when the sign-out call succeeds all four persisted
keys are purged and `user`, the pending challenge, and `viewAsState`
are reset to empty/absent, and a repeated `logout` leaves the same
final state as a single call; when the sign-out call fails, the error
is only logged and the state and store are left unchanged apart from
`isLoading`. -/
theorem logout_amended (s : AuthState) (st : Store) :
    (logout false s st).1 =
      { user := none, isLoading := false, confirmation := none,
        viewAsState := emptyViewAs } ∧
    (logout false s st).2 = emptyStore ∧
    logout false (logout false s st).1 (logout false s st).2 =
      logout false s st ∧
    logout true s st = ({ s with isLoading := false }, st) := by
  simp [logout, clearAuthData]

/-- Counterexample to claim C4: with a truthy credential and a valid
serialized profile but a malformed stored view-as blob, deserializing
the persisted state fails, yet `user` is present (the parsed profile)
after `initializeAuth` completes. -/
theorem initializeAuth_malformed_viewAs_keeps_user :
    parseViewAsBlob .malformed = none ∧
    (initializeAuth ⟨false, none⟩ initialState malformedViewAsStore).state.user
      = some sampleUser := by
  decide

/-- Claim C4 as amended: a failing batched read, or a malformed stored
profile, is caught at the top level of initialization — the persisted
keys are removed and the session ends unauthenticated with `user`
absent; but when only the stored view-as blob is malformed (credential
and profile valid), the keys are purged while the already-parsed user
remains in memory. -/
theorem initializeAuth_persistence_failure_amended :
    (∀ (env : InitEnv) (st : Store),
        env.multiGetFails = true ∨
          (jsTruthyStr st.accessToken = true ∧
           ∃ b, st.userProfile = some b ∧ parseUserBlob b = none) →
        (initializeAuth env initialState st).state.user = none ∧
        (initializeAuth env initialState st).store = emptyStore ∧
        (initializeAuth env initialState st).state.isLoading = false) ∧
    (∀ (env : InitEnv) (st : Store) (u : User) (b vb : Blob),
        env.multiGetFails = false →
        jsTruthyStr st.accessToken = true →
        st.userProfile = some b → parseUserBlob b = some u →
        st.viewAsState = some vb → parseViewAsBlob vb = none →
        (initializeAuth env initialState st).state.user = some u ∧
        (initializeAuth env initialState st).store = emptyStore) := by
  constructor
  · rintro env st (hget | ⟨hat, b, hup, hpu⟩)
    · simp [initializeAuth, hget, clearAuthData, initialState]
    · cases hget : env.multiGetFails with
      | true => simp [initializeAuth, hget, clearAuthData, initialState]
      | false =>
          simp [initializeAuth, hget, hat, hup, hpu, clearAuthData,
            initialState]
  · intro env st u b vb hget hat hup hpu hva hpv
    simp [initializeAuth, hget, hat, hup, hpu, hva, hpv, clearAuthData,
      initialState]

/-- Witness for the amended C4 at concrete inputs: a rejecting read, a
malformed profile blob, and a malformed view-as blob. -/
theorem initializeAuth_persistence_failure_amended_witness :
    ((initializeAuth ⟨true, none⟩ initialState sampleStore).state.user = none ∧
     (initializeAuth ⟨true, none⟩ initialState sampleStore).store = emptyStore ∧
     (initializeAuth ⟨true, none⟩ initialState sampleStore).state.isLoading
       = false) ∧
    ((initializeAuth ⟨false, none⟩ initialState malformedProfileStore).state.user
       = none ∧
     (initializeAuth ⟨false, none⟩ initialState malformedProfileStore).store
       = emptyStore ∧
     (initializeAuth ⟨false, none⟩ initialState malformedProfileStore).state.isLoading
       = false) ∧
    ((initializeAuth ⟨false, none⟩ initialState malformedViewAsStore).state.user
       = some sampleUser ∧
     (initializeAuth ⟨false, none⟩ initialState malformedViewAsStore).store
       = emptyStore) :=
  ⟨initializeAuth_persistence_failure_amended.1 ⟨true, none⟩ sampleStore
     (Or.inl rfl),
   initializeAuth_persistence_failure_amended.1 ⟨false, none⟩
     malformedProfileStore (Or.inr ⟨by decide, .malformed, rfl, rfl⟩),
   initializeAuth_persistence_failure_amended.2 ⟨false, none⟩
     malformedViewAsStore sampleUser (.userBlob sampleUser) .malformed
     rfl (by decide) rfl rfl rfl rfl⟩

/-- Claim C6, evaluated at the failing input: with a pending challenge
and the provider confirming the code with token `tok`, calling
`verifyOTP` with role argument `franchise` sends a `POST /auth/login`
body whose role field is the hardcoded string `customer`, not the
given argument — contradicting the inline comment next to the call
(and the claim). -/
theorem verifyOTP_role_hardcoded_customer :
    (verifyOTP okLoginEnv ("franchise") samplePending emptyStore).request =
      some { idToken := "tok", role := "customer" } ∧
    ("customer" : String) ≠ "franchise" := by
  decide

end AuthContext
